import Mathlib

/-!
Verification of the geo-visualiser renewable-energy site analyzer
(`src/app.py`) against its natural-language specification.

The pipeline embedded here is the data path of the app:
API response → parse into a tabular series → sentinel cleaning →
metric aggregation → suitability classification, plus the chart
projections and the TTL result cache.

Cell values mirror pandas float cells: a value is either a rational
number or NaN (the explicit missing marker produced by cleaning).
Python/numpy comparison semantics on NaN (every `<` comparison is
false) are modelled by `FVal.ltc`.
-/

/-- A pandas cell: either NaN (missing) or a numeric value.
Numeric values are modelled as rationals; no float rounding is
relevant to the claims checked here. -/
inductive FVal where
  | nan : FVal
  | val : ℚ → FVal
deriving DecidableEq, Repr

/-- Python `x < c` on a float cell: false whenever `x` is NaN. -/
def FVal.ltc : FVal → ℚ → Bool
  | .nan, _ => false
  | .val x, c => decide (x < c)

/-- The five ordinal wind suitability bands of the assessment chain
at `src/app.py:318-328`. -/
inductive WindBand where
  | Poor | Marginal | Fair | Good | Excellent
deriving DecidableEq, Repr

/-- The four ordinal solar suitability bands of the assessment chain
at `src/app.py:331-339`. -/
inductive SolarBand where
  | Poor | Fair | Good | Excellent
deriving DecidableEq, Repr

/-- The wind assessment if/elif chain (`src/app.py:319-328`),
applied to `metrics['avg_wind_speed']` which may be NaN. -/
def wind_assessment (avg : FVal) : WindBand :=
  if avg.ltc 3 then .Poor
  else if avg.ltc 5 then .Marginal
  else if avg.ltc 6.5 then .Fair
  else if avg.ltc 7.5 then .Good
  else .Excellent

/-- The solar assessment if/elif chain (`src/app.py:332-339`). -/
def solar_assessment (avg : FVal) : SolarBand :=
  if avg.ltc 3 then .Poor
  else if avg.ltc 4 then .Fair
  else if avg.ltc 5 then .Good
  else .Excellent

/-- Ordinal rank of a wind band (Poor lowest). -/
def WindBand.rank : WindBand → Nat
  | .Poor => 0
  | .Marginal => 1
  | .Fair => 2
  | .Good => 3
  | .Excellent => 4

/-- Ordinal rank of a solar band (Poor lowest). -/
def SolarBand.rank : SolarBand → Nat
  | .Poor => 0
  | .Fair => 1
  | .Good => 2
  | .Excellent => 3

/-- One row of the DataFrame built in `fetch_nasa_power_data`
(`src/app.py:141-146`): a date key plus the three parameter cells. -/
structure DFRecord where
  date : Nat
  wind_speed : FVal
  wind_direction : FVal
  solar_irradiance : FVal
deriving DecidableEq, Repr

/-- `replace(-999, nan)` on one cell (`src/app.py:149`). -/
def cleanVal : FVal → FVal
  | .nan => .nan
  | .val x => if x = -999 then .nan else .val x

/-- `replace(-999, nan)` on one row. -/
def cleanRow (r : DFRecord) : DFRecord :=
  ⟨r.date, cleanVal r.wind_speed, cleanVal r.wind_direction,
    cleanVal r.solar_irradiance⟩

/-- The Cleaner: `df = df.replace(-999, np.nan)` (`src/app.py:149`). -/
def replaceSentinel (df : List DFRecord) : List DFRecord :=
  df.map cleanRow

theorem cleanVal_idem (v : FVal) : cleanVal (cleanVal v) = cleanVal v := by
  cases v with
  | nan => rfl
  | val x =>
      by_cases h : x = -999 <;> simp [cleanVal, h]

theorem cleanRow_idem (r : DFRecord) : cleanRow (cleanRow r) = cleanRow r := by
  simp [cleanRow, cleanVal_idem]

/-- The non-missing values of a column, in order (what pandas
skipna aggregation operates on). -/
def validVals (xs : List FVal) : List ℚ :=
  xs.filterMap fun v =>
    match v with
    | .nan => none
    | .val x => some x

/-- pandas `Series.mean()` with default skipna: NaN when every entry
is missing, otherwise the arithmetic mean of the present entries. -/
def seriesMean (xs : List FVal) : FVal :=
  match validVals xs with
  | [] => .nan
  | v :: rest => .val ((v :: rest).sum / (v :: rest).length)

/-- pandas `Series.max()` with default skipna: NaN when every entry
is missing, otherwise the maximum of the present entries. -/
def seriesMax (xs : List FVal) : FVal :=
  match validVals xs with
  | [] => .nan
  | v :: rest => .val (rest.foldl max v)

/-- pandas `Series.sum()` with default skipna and `min_count=0`:
the sum of the present entries, hence `0` (not NaN) when every
entry is missing. -/
def seriesSum (xs : List FVal) : FVal :=
  .val (validVals xs).sum

/-- The fixed-shape metrics record of `calculate_metrics`
(`src/app.py:175-181`). -/
structure Metrics where
  avg_wind_speed : FVal
  avg_solar_radiation : FVal
  max_wind_speed : FVal
  max_solar_radiation : FVal
  total_solar_energy : FVal
deriving DecidableEq, Repr

/-- `calculate_metrics` (`src/app.py:165-183`). -/
def calculate_metrics (df : List DFRecord) : Metrics :=
  { avg_wind_speed := seriesMean (df.map (·.wind_speed))
    avg_solar_radiation := seriesMean (df.map (·.solar_irradiance))
    max_wind_speed := seriesMax (df.map (·.wind_speed))
    max_solar_radiation := seriesMax (df.map (·.solar_irradiance))
    total_solar_energy := seriesSum (df.map (·.solar_irradiance)) }

/-! ## Claim C1: classifier threshold intervals -/

/-- C1: the wind classifier assigns bands by half-open intervals
closed at the lower bound (`<3` Poor, `[3,5)` Marginal, `[5,6.5)`
Fair, `[6.5,7.5)` Good, `≥7.5` Excellent) and the solar classifier
likewise (`<3` Poor, `[3,4)` Fair, `[4,5)` Good, `≥5` Excellent);
in particular 5.0 → Fair, 6.5 → Good, 7.5 → Excellent for wind and
3.0 → Fair, 5.0 → Excellent for solar. -/
theorem C1_classifier_half_open_intervals :
    (∀ v : ℚ,
      (wind_assessment (.val v) = .Poor ↔ v < 3) ∧
      (wind_assessment (.val v) = .Marginal ↔ 3 ≤ v ∧ v < 5) ∧
      (wind_assessment (.val v) = .Fair ↔ 5 ≤ v ∧ v < 6.5) ∧
      (wind_assessment (.val v) = .Good ↔ 6.5 ≤ v ∧ v < 7.5) ∧
      (wind_assessment (.val v) = .Excellent ↔ 7.5 ≤ v)) ∧
    (∀ s : ℚ,
      (solar_assessment (.val s) = .Poor ↔ s < 3) ∧
      (solar_assessment (.val s) = .Fair ↔ 3 ≤ s ∧ s < 4) ∧
      (solar_assessment (.val s) = .Good ↔ 4 ≤ s ∧ s < 5) ∧
      (solar_assessment (.val s) = .Excellent ↔ 5 ≤ s)) ∧
    wind_assessment (.val 5) = .Fair ∧
    wind_assessment (.val 6.5) = .Good ∧
    wind_assessment (.val 7.5) = .Excellent ∧
    solar_assessment (.val 3) = .Fair ∧
    solar_assessment (.val 5) = .Excellent := by
  refine ⟨?_, ?_, ?_, ?_, ?_, ?_, ?_⟩
  case refine_3 => norm_num [wind_assessment, FVal.ltc]
  case refine_4 => norm_num [wind_assessment, FVal.ltc]
  case refine_5 => norm_num [wind_assessment, FVal.ltc]
  case refine_6 => norm_num [solar_assessment, FVal.ltc]
  case refine_7 => norm_num [solar_assessment, FVal.ltc]
  · intro v
    simp only [wind_assessment, FVal.ltc, decide_eq_true_eq]
    split_ifs with h1 h2 h3 h4 <;>
      refine ⟨?_, ?_, ?_, ?_, ?_⟩ <;> simp <;>
      first
        | linarith
        | (constructor <;> linarith)
        | (intro h; linarith)
  · intro s
    simp only [solar_assessment, FVal.ltc, decide_eq_true_eq]
    split_ifs with h1 h2 h3 <;>
      refine ⟨?_, ?_, ?_, ?_⟩ <;> simp <;>
      first
        | linarith
        | (constructor <;> linarith)
        | (intro h; linarith)

/-- Witness for C1 at a concrete input. -/
theorem C1_witness : wind_assessment (FVal.val 4) = WindBand.Marginal :=
  ((C1_classifier_half_open_intervals.1 4).2.1).mpr (by norm_num)

/-! ## Claim C10: classifier monotonicity -/

/-- C10: both classifiers are monotone on non-missing averages:
`a ≤ b` implies the band of `b` is not strictly lower on the
ordinal scale than the band of `a`. -/
theorem C10_classifier_monotone (a b : ℚ) (hab : a ≤ b) :
    (wind_assessment (.val a)).rank ≤ (wind_assessment (.val b)).rank ∧
    (solar_assessment (.val a)).rank ≤ (solar_assessment (.val b)).rank := by
  constructor
  · simp only [wind_assessment, FVal.ltc, decide_eq_true_eq]
    split_ifs <;>
      first
        | (simp only [WindBand.rank]; omega)
        | (exfalso; linarith)
  · simp only [solar_assessment, FVal.ltc, decide_eq_true_eq]
    split_ifs <;>
      first
        | (simp only [SolarBand.rank]; omega)
        | (exfalso; linarith)

/-- Witness for C10 at concrete inputs 2 ≤ 8. -/
theorem C10_witness :
    (wind_assessment (.val 2)).rank ≤ (wind_assessment (.val 8)).rank ∧
    (solar_assessment (.val 2)).rank ≤ (solar_assessment (.val 8)).rank :=
  C10_classifier_monotone 2 8 (by norm_num)

/-! ## Claim C7: cleaner idempotence -/

/-- C7: the Cleaner (`df.replace(-999, nan)`, a pure total
function) is idempotent: cleaning twice equals cleaning once. -/
theorem C7_cleaner_idempotent (df : List DFRecord) :
    replaceSentinel (replaceSentinel df) = replaceSentinel df := by
  simp only [replaceSentinel, List.map_map, Function.comp]
  simp [cleanRow_idem]

/-- Witness for C7 on a concrete series containing a sentinel. -/
theorem C7_witness :
    replaceSentinel (replaceSentinel
      [⟨20200101, FVal.val (-999), FVal.val 180, FVal.val 4⟩]) =
    replaceSentinel [⟨20200101, FVal.val (-999), FVal.val 180, FVal.val 4⟩] :=
  C7_cleaner_idempotent _

/-! ## Claim C2: aggregates over an all-missing field -/

theorem validVals_nil_of_all_nan (xs : List FVal)
    (h : ∀ v ∈ xs, v = FVal.nan) : validVals xs = [] := by
  simp only [validVals, List.filterMap_eq_nil_iff]
  intro a ha
  rw [h a ha]

/-- A concrete series whose solar column is entirely missing. -/
def dfAllSolarMissing : List DFRecord :=
  [⟨20200101, .val 5, .val 100, .nan⟩, ⟨20200102, .val 6, .val 200, .nan⟩]

/-- C2 counterexample: with every solar entry missing, the total
solar energy computed by `calculate_metrics` is the numeric value
0, not NaN (pandas `sum` of an all-NaN column is 0.0), refuting
the claim that every aggregate over an all-missing field is
undefined/NaN. -/
theorem C2_counterexample :
    (calculate_metrics dfAllSolarMissing).total_solar_energy = FVal.val 0 ∧
    FVal.val 0 ≠ FVal.nan :=
  ⟨rfl, fun h => FVal.noConfusion h⟩

/-- C2 amended: over an all-missing field, average and maximum are
NaN; the solar total, however, is the numeric value 0. -/
theorem C2_amended_aggregates (df : List DFRecord) :
    ((∀ r ∈ df, r.wind_speed = FVal.nan) →
      (calculate_metrics df).avg_wind_speed = FVal.nan ∧
      (calculate_metrics df).max_wind_speed = FVal.nan) ∧
    ((∀ r ∈ df, r.solar_irradiance = FVal.nan) →
      (calculate_metrics df).avg_solar_radiation = FVal.nan ∧
      (calculate_metrics df).max_solar_radiation = FVal.nan ∧
      (calculate_metrics df).total_solar_energy = FVal.val 0) := by
  constructor
  · intro hw
    have h : validVals (df.map (·.wind_speed)) = [] := by
      refine validVals_nil_of_all_nan _ ?_
      intro v hv
      obtain ⟨r, hr, rfl⟩ := List.mem_map.mp hv
      exact hw r hr
    exact ⟨by simp [calculate_metrics, seriesMean, h],
           by simp [calculate_metrics, seriesMax, h]⟩
  · intro hs
    have h : validVals (df.map (·.solar_irradiance)) = [] := by
      refine validVals_nil_of_all_nan _ ?_
      intro v hv
      obtain ⟨r, hr, rfl⟩ := List.mem_map.mp hv
      exact hs r hr
    exact ⟨by simp [calculate_metrics, seriesMean, h],
           by simp [calculate_metrics, seriesMax, h],
           by simp [calculate_metrics, seriesSum, h]⟩

/-- Witness for C2 (amended) on a concrete all-missing series. -/
theorem C2_amended_witness :
    (calculate_metrics [⟨1, FVal.nan, FVal.val 1, FVal.nan⟩]).avg_wind_speed
      = FVal.nan ∧
    (calculate_metrics [⟨1, FVal.nan, FVal.val 1, FVal.nan⟩]).total_solar_energy
      = FVal.val 0 := by
  have hw : ∀ r ∈ [(⟨1, FVal.nan, FVal.val 1, FVal.nan⟩ : DFRecord)],
      r.wind_speed = FVal.nan := by
    intro r hr
    simp only [List.mem_singleton] at hr
    rw [hr]
  have hs : ∀ r ∈ [(⟨1, FVal.nan, FVal.val 1, FVal.nan⟩ : DFRecord)],
      r.solar_irradiance = FVal.nan := by
    intro r hr
    simp only [List.mem_singleton] at hr
    rw [hr]
  exact ⟨((C2_amended_aggregates _).1 hw).1,
         ((C2_amended_aggregates _).2 hs).2.2⟩

/-! ## Claim C3: classifying an undefined (NaN) average -/

/-- A concrete series whose wind-speed column is entirely missing. -/
def dfAllWindMissing : List DFRecord :=
  [⟨20200101, .nan, .val 180, .val 4⟩, ⟨20200102, .nan, .val 190, .val 5⟩]

/-- C3: on a series with every wind speed missing, the aggregated
average is NaN, and the classifier chain IS invoked on that NaN:
every NaN comparison is false, so the `else` branch assigns the
ordinary band Excellent — not a "no data" state. This evaluates
the code at the failing input, exhibiting the bug behind claim C3. -/
theorem C3_nan_average_classified_excellent :
    (calculate_metrics dfAllWindMissing).avg_wind_speed = FVal.nan ∧
    wind_assessment (calculate_metrics dfAllWindMissing).avg_wind_speed =
      WindBand.Excellent := by
  have h : (calculate_metrics dfAllWindMissing).avg_wind_speed = FVal.nan := rfl
  exact ⟨h, by rw [h]; simp [wind_assessment, FVal.ltc]⟩

/-! ## The Fetcher (`fetch_nasa_power_data`, `src/app.py:100-161`) -/

/-- The body of an API response, as far as the parser inspects it:
either it lacks the `properties.parameter` structure (or is not
parseable JSON at all), or it carries the three parameter series as
ordered (dateKey, value) pairs; `params.get(NAME, {})` turns an
absent parameter into the empty series. -/
inductive ApiJson where
  | malformed : ApiJson
  | powerData (ws10m wd10m allsky : List (Nat × ℚ)) : ApiJson

/-- The outcome of `requests.get`: a raised `RequestException`
(timeout or connection failure), or a response carrying an HTTP
status code and a body. -/
inductive HttpResult where
  | requestError : HttpResult
  | response (status : Nat) (body : ApiJson) : HttpResult

/-- The three column lists zipped positionally into DataFrame rows,
with dates taken from the wind-speed series keys
(`src/app.py:141-146`). -/
def zip3Rows : List (Nat × ℚ) → List ℚ → List ℚ → List DFRecord
  | w :: ws, d :: ds, s :: ss =>
      ⟨w.1, .val w.2, .val d, .val s⟩ :: zip3Rows ws ds ss
  | _, _, _ => []

/-- `fetch_nasa_power_data` (`src/app.py:125-161`) as a function of
the HTTP outcome. `raise_for_status` raises on status ≥ 400 and the
`RequestException` handler returns `None`; a body without
`properties.parameter` hits the `else` branch and returns `None`;
`pd.DataFrame` raises `ValueError` when the three value lists have
different lengths, which the generic `except` handler turns into
`None`; otherwise the frame is built positionally and cleaned. -/
def fetch_nasa_power_data : HttpResult → Option (List DFRecord)
  | .requestError => none
  | .response status body =>
      if 400 ≤ status then none
      else
        match body with
        | .malformed => none
        | .powerData ws10m wd10m allsky =>
            if ws10m.length = wd10m.length ∧ ws10m.length = allsky.length then
              some (replaceSentinel
                (zip3Rows ws10m (wd10m.map Prod.snd) (allsky.map Prod.snd)))
            else none

/-! ## Claim C4: failure discrimination -/

/-- C4 counterexample: a network failure, a malformed 200 response
and an HTTP 500 all return the same untyped value `none`; in
particular the result of a transient network failure is
indistinguishable from that of a malformed response, refuting the
claim that failures surface as a discriminated (typed) result. -/
theorem C4_counterexample :
    fetch_nasa_power_data .requestError = none ∧
    fetch_nasa_power_data (.response 200 .malformed) = none ∧
    fetch_nasa_power_data (.response 500 .malformed) = none ∧
    fetch_nasa_power_data .requestError =
      fetch_nasa_power_data (.response 200 .malformed) :=
  ⟨rfl, rfl, rfl, rfl⟩

/-- C4 amended: the Fetcher returns `some` series exactly on a
success-status response whose body has the expected structure and
whose three series have equal lengths; every failure cause
(network error, HTTP error status, malformed body, mismatched
series lengths) returns the single undiscriminated value `none`
(an error message is displayed to the UI instead of being encoded
in the result). -/
theorem C4_amended_failures_undiscriminated (r : HttpResult) :
    (fetch_nasa_power_data r).isSome ↔
      ∃ status ws10m wd10m allsky,
        r = .response status (.powerData ws10m wd10m allsky) ∧
        status < 400 ∧ ws10m.length = wd10m.length ∧
        ws10m.length = allsky.length := by
  cases r with
  | requestError => simp [fetch_nasa_power_data]
  | response status body =>
      cases body with
      | malformed =>
          simp only [fetch_nasa_power_data]
          split_ifs <;> simp
      | powerData ws10m wd10m allsky =>
          simp only [fetch_nasa_power_data]
          split_ifs with h1 h2
          · simp
            intro x x1 x2 x3 hst hws hwd hal hlt hlen
            omega
          · simp
            exact ⟨status, ws10m, wd10m, allsky, ⟨rfl, rfl, rfl, rfl⟩,
              by omega, h2.1, h2.2⟩
          · simp
            intro x x1 x2 x3 hst hws hwd hal hlt hlen
            subst hws
            subst hwd
            subst hal
            exact fun hb => h2 ⟨hlen, hb⟩

/-- Witness for C4 (amended) at a concrete well-formed response. -/
theorem C4_witness :
    (fetch_nasa_power_data (.response 200 (.powerData
      [(20200101, 5)] [(20200101, 180)] [(20200101, 4)]))).isSome := by
  rw [C4_amended_failures_undiscriminated]
  exact ⟨200, [(20200101, 5)], [(20200101, 180)], [(20200101, 4)],
    rfl, by norm_num, rfl, rfl⟩

/-! ## Claim C5: alignment of the three parameter series -/

theorem replaceSentinel_map_date (l : List DFRecord) :
    (replaceSentinel l).map DFRecord.date = l.map DFRecord.date := by
  induction l with
  | nil => rfl
  | cons r t ih =>
      simp only [replaceSentinel, List.map_cons] at ih ⊢
      rw [ih]
      rfl

theorem replaceSentinel_length (l : List DFRecord) :
    (replaceSentinel l).length = l.length :=
  List.length_map l cleanRow

theorem zip3Rows_map_date (ws : List (Nat × ℚ)) (ds ss : List ℚ)
    (hd : ws.length = ds.length) (hs : ws.length = ss.length) :
    (zip3Rows ws ds ss).map DFRecord.date = ws.map Prod.fst := by
  induction ws generalizing ds ss with
  | nil => cases ds <;> cases ss <;> rfl
  | cons w tw ih =>
      cases ds with
      | nil => simp at hd
      | cons d td =>
          cases ss with
          | nil => simp at hs
          | cons s ts =>
              simp only [zip3Rows, List.map_cons]
              rw [ih td ts (by simpa using hd) (by simpa using hs)]

theorem zip3Rows_length (ws : List (Nat × ℚ)) (ds ss : List ℚ)
    (hd : ws.length = ds.length) (hs : ws.length = ss.length) :
    (zip3Rows ws ds ss).length = ws.length := by
  induction ws generalizing ds ss with
  | nil => cases ds <;> cases ss <;> rfl
  | cons w tw ih =>
      cases ds with
      | nil => simp at hd
      | cons d td =>
          cases ss with
          | nil => simp at hs
          | cons s ts =>
              simp only [zip3Rows, List.length_cons]
              rw [ih td ts (by simpa using hd) (by simpa using hs)]

/-- A successful (HTTP 200, well-formed) response in which the date
key 20200102 is present in the wind-speed and solar series but
absent from the wind-direction series. -/
def mismatchedKeysResponse : HttpResult :=
  .response 200 (.powerData
    [(20200101, 5), (20200102, 6)]
    [(20200101, 180)]
    [(20200101, 4), (20200102, 5)])

/-- C5 counterexample: on a successful response whose parameter
series do not share identical date keys, the Fetcher does not
produce a YearSeries with missing markers for the absent dates —
the `pd.DataFrame` constructor raises on the unequal column
lengths and the Fetcher returns `none`. -/
theorem C5_counterexample :
    fetch_nasa_power_data mismatchedKeysResponse = none := rfl

/-- C5 amended: the three series are never aligned by date. If
their lengths differ the fetch fails with `none`; if the lengths
agree, rows are built positionally and every row date comes from
the wind-speed series keys alone (the other series' keys are
ignored), with no missing markers introduced for absent dates. -/
theorem C5_amended_positional_zip (status : Nat)
    (ws10m wd10m allsky : List (Nat × ℚ)) (hstatus : status < 400) :
    (¬(ws10m.length = wd10m.length ∧ ws10m.length = allsky.length) →
      fetch_nasa_power_data
        (.response status (.powerData ws10m wd10m allsky)) = none) ∧
    ((ws10m.length = wd10m.length ∧ ws10m.length = allsky.length) →
      ∃ df, fetch_nasa_power_data
          (.response status (.powerData ws10m wd10m allsky)) = some df ∧
        df.map DFRecord.date = ws10m.map Prod.fst ∧
        df.length = ws10m.length) := by
  constructor
  · intro hne
    simp only [fetch_nasa_power_data]
    rw [if_neg (by omega), if_neg hne]
  · intro hlen
    refine ⟨replaceSentinel
      (zip3Rows ws10m (wd10m.map Prod.snd) (allsky.map Prod.snd)), ?_, ?_, ?_⟩
    · simp only [fetch_nasa_power_data]
      rw [if_neg (by omega), if_pos hlen]
    · rw [replaceSentinel_map_date]
      exact zip3Rows_map_date _ _ _ (by simpa using hlen.1) (by simpa using hlen.2)
    · rw [replaceSentinel_length]
      exact zip3Rows_length _ _ _ (by simpa using hlen.1) (by simpa using hlen.2)

/-- Witness for C5 (amended) at a concrete response: equal lengths
but three different date keys; the produced row takes its date from
the wind-speed series. -/
theorem C5_witness :
    ∃ df, fetch_nasa_power_data (.response 200 (.powerData
        [(20200101, 5)] [(20200103, 180)] [(20200104, 4)])) = some df ∧
      df.map DFRecord.date = [20200101] ∧ df.length = 1 := by
  have h := (C5_amended_positional_zip 200 [(20200101, 5)] [(20200103, 180)]
      [(20200104, 4)] (by norm_num)).2 (by simp)
  simpa using h

/-! ## Claim C8: chart data shaping -/

/-- The (direction, speed) pairing of `create_wind_rose`:
`df[['wind_speed','wind_direction']].dropna()` keeps exactly the
rows in which both cells are present (`src/app.py:198`). -/
def windRoseRows (df : List DFRecord) : List (ℚ × ℚ) :=
  df.filterMap fun r =>
    match r.wind_direction, r.wind_speed with
    | .val d, .val s => some (d, s)
    | _, _ => none

/-- `create_wind_rose` (`src/app.py:187-217`): `none` models the
`return None` taken when zero rows remain after `dropna`, which the
caller renders as the "insufficient data" warning
(`src/app.py:370`). -/
def create_wind_rose (df : List DFRecord) : Option (List (ℚ × ℚ)) :=
  if (windRoseRows df).length = 0 then none else some (windRoseRows df)

/-- `create_time_series_charts` (`src/app.py:220-266`): the full
date column paired with the full wind-speed column, and with the
full solar column; gaps (NaN cells) are retained, not dropped. -/
def create_time_series_charts (df : List DFRecord) :
    List (Nat × FVal) × List (Nat × FVal) :=
  (df.map fun r => (r.date, r.wind_speed),
   df.map fun r => (r.date, r.solar_irradiance))

/-- C8: the directional projection drops exactly the rows with a
missing direction or speed and signals "insufficient data" (`none`)
precisely when no row survives; the time-series projections keep
full length, the input's date column in order, and each row's
(possibly missing) value as a gap. -/
theorem C8_chart_shaping (df : List DFRecord) :
    (create_wind_rose df = none ↔
      ∀ r ∈ df, r.wind_direction = FVal.nan ∨ r.wind_speed = FVal.nan) ∧
    (∀ r ∈ df, ∀ d s : ℚ,
      r.wind_direction = .val d → r.wind_speed = .val s →
      create_wind_rose df = some (windRoseRows df) ∧
        (d, s) ∈ windRoseRows df) ∧
    (create_time_series_charts df).1.length = df.length ∧
    (create_time_series_charts df).2.length = df.length ∧
    (create_time_series_charts df).1.map Prod.fst = df.map DFRecord.date ∧
    (create_time_series_charts df).2.map Prod.fst = df.map DFRecord.date ∧
    (∀ (k : Nat) (r0 : DFRecord), df[k]? = some r0 →
      ((create_time_series_charts df).1)[k]? = some (r0.date, r0.wind_speed) ∧
      ((create_time_series_charts df).2)[k]? =
        some (r0.date, r0.solar_irradiance)) := by
  have hpair : ∀ r : DFRecord,
      (match r.wind_direction, r.wind_speed with
        | FVal.val d, FVal.val s => some (d, s)
        | _, _ => none) = (none : Option (ℚ × ℚ)) ↔
      r.wind_direction = FVal.nan ∨ r.wind_speed = FVal.nan := by
    intro r
    cases hd : r.wind_direction <;> cases hs : r.wind_speed <;> simp
  have hnil : windRoseRows df = [] ↔
      ∀ r ∈ df, r.wind_direction = FVal.nan ∨ r.wind_speed = FVal.nan := by
    rw [windRoseRows, List.filterMap_eq_nil_iff]
    constructor
    · intro h r hr
      exact (hpair r).mp (h r hr)
    · intro h r hr
      exact (hpair r).mpr (h r hr)
  refine ⟨?_, ?_, ?_, ?_, ?_, ?_, ?_⟩
  · rw [← hnil, create_wind_rose]
    split_ifs with h
    · simp [List.length_eq_zero.mp h]
    · constructor
      · intro hx
        exact hx.elim
      · intro hx
        rw [hx] at h
        exact absurd rfl h
  · intro r hr d s hd hs
    have hmem : (d, s) ∈ windRoseRows df := by
      rw [windRoseRows, List.mem_filterMap]
      exact ⟨r, hr, by rw [hd, hs]⟩
    have hne : ¬(windRoseRows df).length = 0 := by
      intro h0
      rw [List.length_eq_zero.mp h0] at hmem
      cases hmem
    exact ⟨by rw [create_wind_rose, if_neg hne], hmem⟩
  · simp [create_time_series_charts]
  · simp [create_time_series_charts]
  · simp [create_time_series_charts]
  · simp [create_time_series_charts]
  · intro k r0 hk
    constructor <;> simp [create_time_series_charts, hk]

/-- Witness for C8 on a concrete one-row series with a missing
wind direction. -/
theorem C8_witness :
    create_wind_rose [⟨20200101, FVal.val 5, FVal.nan, FVal.val 4⟩] = none := by
  refine (C8_chart_shaping _).1.mpr ?_
  intro r hr
  simp only [List.mem_singleton] at hr
  rw [hr]
  left
  rfl

/-! ## Claim C6: effect of one sentinel wind-speed value -/

/-- One raw day of provider values, before cleaning. -/
structure RawDay where
  dt : Nat
  ws : ℚ
  wd : ℚ
  sol : ℚ
deriving DecidableEq, Repr

/-- The DataFrame row of a raw day (all three cells present). -/
def mkRaw (q : RawDay) : DFRecord :=
  ⟨q.dt, .val q.ws, .val q.wd, .val q.sol⟩

/-- No field of the raw day carries the provider's sentinel. -/
def rawValid (q : RawDay) : Prop :=
  q.ws ≠ -999 ∧ q.wd ≠ -999 ∧ q.sol ≠ -999

/-- A raw series in which exactly the middle day carries the
sentinel −999 in its wind-speed field. -/
def sentinelDaySeries (pre post : List RawDay) (dt : Nat) (d s : ℚ) :
    List DFRecord :=
  pre.map mkRaw ++ ⟨dt, .val (-999), .val d, .val s⟩ :: post.map mkRaw

theorem cleanRow_mkRaw (q : RawDay) (h : rawValid q) :
    cleanRow (mkRaw q) = mkRaw q := by
  obtain ⟨h1, h2, h3⟩ := h
  simp [cleanRow, mkRaw, cleanVal, h1, h2, h3]

theorem replaceSentinel_map_mkRaw (l : List RawDay)
    (h : ∀ q ∈ l, rawValid q) :
    replaceSentinel (l.map mkRaw) = l.map mkRaw := by
  rw [replaceSentinel, List.map_map]
  apply List.map_congr_left
  intro q hq
  exact cleanRow_mkRaw q (h q hq)

theorem validVals_append (xs ys : List FVal) :
    validVals (xs ++ ys) = validVals xs ++ validVals ys := by
  simp [validVals, List.filterMap_append]

theorem validVals_cons_nan (xs : List FVal) :
    validVals (FVal.nan :: xs) = validVals xs := by
  simp [validVals, List.filterMap_cons]

theorem validVals_cons_val (x : ℚ) (xs : List FVal) :
    validVals (FVal.val x :: xs) = x :: validVals xs := by
  simp [validVals, List.filterMap_cons]

theorem validVals_map_val (l : List RawDay) (f : RawDay → ℚ) :
    validVals (l.map fun q => FVal.val (f q)) = l.map f := by
  induction l with
  | nil => rfl
  | cons q t ih =>
      rw [List.map_cons, validVals_cons_val, ih, List.map_cons]

theorem map_mkRaw_wind (l : List RawDay) :
    (l.map mkRaw).map (·.wind_speed) = l.map fun q => FVal.val q.ws := by
  rw [List.map_map]
  rfl

theorem map_mkRaw_solar (l : List RawDay) :
    (l.map mkRaw).map (·.solar_irradiance) = l.map fun q => FVal.val q.sol := by
  rw [List.map_map]
  rfl

/-- C6: cleaning a raw series whose only sentinel is one day's wind
speed (1) marks exactly that cell missing and leaves the day's
other fields and all other days unchanged, (2) makes the non-missing
wind values exactly those of the other days, so the day is excluded
from the wind average and maximum (which equal those of the series
without the day), while (3) the day's solar value still contributes
to the solar aggregates, the total being the sum including `s`. -/
theorem C6_sentinel_day (pre post : List RawDay) (dt : Nat) (d s : ℚ)
    (hvalid : ∀ q ∈ pre ++ post, rawValid q)
    (hd : d ≠ -999) (hs : s ≠ -999) :
    replaceSentinel (sentinelDaySeries pre post dt d s)
      = pre.map mkRaw ++ ⟨dt, .nan, .val d, .val s⟩ :: post.map mkRaw ∧
    validVals ((replaceSentinel (sentinelDaySeries pre post dt d s)).map
        (·.wind_speed)) = (pre ++ post).map RawDay.ws ∧
    validVals ((replaceSentinel (sentinelDaySeries pre post dt d s)).map
        (·.solar_irradiance))
      = pre.map RawDay.sol ++ s :: post.map RawDay.sol ∧
    (calculate_metrics (replaceSentinel (sentinelDaySeries pre post dt d s))
      ).avg_wind_speed
      = (calculate_metrics ((pre ++ post).map mkRaw)).avg_wind_speed ∧
    (calculate_metrics (replaceSentinel (sentinelDaySeries pre post dt d s))
      ).max_wind_speed
      = (calculate_metrics ((pre ++ post).map mkRaw)).max_wind_speed ∧
    (calculate_metrics (replaceSentinel (sentinelDaySeries pre post dt d s))
      ).total_solar_energy
      = .val ((pre.map RawDay.sol).sum + (s + (post.map RawDay.sol).sum)) := by
  have hpre : ∀ q ∈ pre, rawValid q := fun q hq =>
    hvalid q (List.mem_append_left _ hq)
  have hpost : ∀ q ∈ post, rawValid q := fun q hq =>
    hvalid q (List.mem_append_right _ hq)
  have hclean : replaceSentinel (sentinelDaySeries pre post dt d s)
      = pre.map mkRaw ++ ⟨dt, .nan, .val d, .val s⟩ :: post.map mkRaw := by
    rw [sentinelDaySeries, replaceSentinel, List.map_append, List.map_cons]
    rw [← replaceSentinel, replaceSentinel_map_mkRaw pre hpre]
    rw [← replaceSentinel, replaceSentinel_map_mkRaw post hpost]
    have : cleanRow ⟨dt, .val (-999), .val d, .val s⟩
        = ⟨dt, .nan, .val d, .val s⟩ := by
      simp [cleanRow, cleanVal, hd, hs]
    rw [this]
  have hwind : validVals ((replaceSentinel (sentinelDaySeries pre post dt d s)
      ).map (·.wind_speed)) = (pre ++ post).map RawDay.ws := by
    rw [hclean, List.map_append, List.map_cons, map_mkRaw_wind, map_mkRaw_wind]
    show validVals (_ ++ FVal.nan :: _) = _
    rw [validVals_append, validVals_cons_nan, validVals_map_val,
      validVals_map_val, ← List.map_append]
  have hsolar : validVals ((replaceSentinel (sentinelDaySeries pre post dt d s)
      ).map (·.solar_irradiance))
      = pre.map RawDay.sol ++ s :: post.map RawDay.sol := by
    rw [hclean, List.map_append, List.map_cons, map_mkRaw_solar,
      map_mkRaw_solar]
    show validVals (_ ++ FVal.val s :: _) = _
    rw [validVals_append, validVals_cons_val, validVals_map_val,
      validVals_map_val]
  have hwind2 : validVals (((pre ++ post).map mkRaw).map (·.wind_speed))
      = (pre ++ post).map RawDay.ws := by
    rw [map_mkRaw_wind, validVals_map_val]
  refine ⟨hclean, hwind, hsolar, ?_, ?_, ?_⟩
  · simp only [calculate_metrics, seriesMean]
    rw [hwind, hwind2]
  · simp only [calculate_metrics, seriesMax]
    rw [hwind, hwind2]
  · simp only [calculate_metrics, seriesSum]
    rw [hsolar, List.sum_append, List.sum_cons]

/-- Witness for C6 on a concrete three-day series where the middle
day's wind speed is the sentinel. -/
theorem C6_witness :
    validVals ((replaceSentinel
        (sentinelDaySeries [⟨20200101, 4, 100, 2⟩] [⟨20200103, 6, 120, 3⟩]
          20200102 110 7)).map (·.wind_speed))
      = [4, 6] ∧
    (calculate_metrics (replaceSentinel
        (sentinelDaySeries [⟨20200101, 4, 100, 2⟩] [⟨20200103, 6, 120, 3⟩]
          20200102 110 7))).total_solar_energy = .val 12 := by
  have h := C6_sentinel_day [⟨20200101, 4, 100, 2⟩] [⟨20200103, 6, 120, 3⟩]
    20200102 110 7
    (by
      intro q hq
      simp only [List.mem_append, List.mem_singleton] at hq
      rcases hq with h1 | h1 <;> rw [h1] <;>
        exact ⟨by norm_num, by norm_num, by norm_num⟩)
    (by norm_num) (by norm_num)
  refine ⟨?_, ?_⟩
  · rw [h.2.1]
    rfl
  · rw [h.2.2.2.2.2]
    norm_num

/-! ## Claim C9: the TTL result cache -/

/-- A cache key: (latitude, longitude, year), the argument tuple of
`fetch_nasa_power_data`. -/
abbrev CacheKey := ℚ × ℚ × Nat

/-- The cache contents: key → (time stored, stored series). -/
def Cache := CacheKey → Option (Nat × List DFRecord)

/-- The empty (cold) cache. -/
def emptyCache : Cache := fun _ => none

/-- Modelled from the spec: the result cache that the
`@st.cache_data(ttl=3600)` decorator (library code, not part of
`src/`) wraps around `fetch_nasa_power_data` (`src/app.py:99`).
Per the spec, successful results are cached per (lat, lon, year)
for a fixed time-to-live: a call whose key is cached and unexpired
returns the stored series without invoking the fetch; a miss or an
expired entry invokes the fetch and stores the fresh result.
Returns (series, whether a network call was issued, updated
cache). -/
def cachedFetch (ttl : Nat) (f : CacheKey → List DFRecord) (c : Cache)
    (now : Nat) (k : CacheKey) : List DFRecord × Bool × Cache :=
  match c k with
  | some (t0, v) =>
      if now - t0 < ttl then (v, false, c)
      else (f k, true, fun j => if j = k then some (now, f k) else c j)
  | none => (f k, true, fun j => if j = k then some (now, f k) else c j)

/-- C9: after a first call on an uncached key (which issues the one
network call and returns the fetched series), a second call with
the identical key within the TTL issues no network call and
returns the cached series unchanged, while a second call at or
after TTL expiry issues a new network call. -/
theorem C9_cache_ttl (ttl : Nat) (f : CacheKey → List DFRecord)
    (c0 : Cache) (t0 t1 : Nat) (k : CacheKey)
    (v1 : List DFRecord) (b1 : Bool) (c1 : Cache)
    (hmiss : c0 k = none)
    (hfirst : cachedFetch ttl f c0 t0 k = (v1, b1, c1)) :
    b1 = true ∧ v1 = f k ∧
    (t1 - t0 < ttl → cachedFetch ttl f c1 t1 k = (v1, false, c1)) ∧
    (ttl ≤ t1 - t0 → (cachedFetch ttl f c1 t1 k).2.1 = true) := by
  simp only [cachedFetch, hmiss, Prod.mk.injEq] at hfirst
  obtain ⟨hv, hb, hc⟩ := hfirst
  subst hv
  subst hb
  subst hc
  refine ⟨rfl, rfl, ?_, ?_⟩
  · intro h
    simp [cachedFetch, h]
  · intro h
    have hnot : ¬(t1 - t0 < ttl) := by omega
    simp [cachedFetch, hnot]

/-- Witness for C9: a second call 10 time units after the first
(within a 3600-unit TTL) issues no network call. -/
theorem C9_witness :
    (cachedFetch 3600 (fun _ => []) (fun j =>
        if j = ((0 : ℚ), (0 : ℚ), 2020) then some (0, ([] : List DFRecord))
        else emptyCache j) 10 ((0 : ℚ), (0 : ℚ), 2020)).2.1 = false := by
  have h := (C9_cache_ttl 3600 (fun _ => []) emptyCache 0 10
      ((0 : ℚ), (0 : ℚ), 2020) [] true
      (fun j => if j = ((0 : ℚ), (0 : ℚ), 2020) then some (0, [])
        else emptyCache j) rfl rfl).2.2.1 (by norm_num)
  rw [h]
